import Mathlib

/-
  Verification of the payment-system HTTP service (src/cmd/api/main.go).

  The service exposes two handlers:
  * handleCreatePayment: POST /payments — decodes a JSON body into a
    Payment struct, validates amount and currency, assigns a constant id
    and status "pending", and echoes the enriched Payment as JSON with 201.
  * handleGetPayment: GET /payments/status — returns a fixed mock Payment
    as JSON with 200.

  The embedding below models the Payment struct, the relevant semantics of
  Go's encoding/json package (lenient struct decoding: unknown keys are
  ignored, missing fields keep their zero values, null is a no-op, type
  mismatches are errors, field names match case-insensitively; encoding
  follows struct field order with omitempty on description), http.Error,
  and both handler functions. Monetary amounts are modelled as rationals;
  the properties at stake involve only comparisons with zero and exact
  echoing of the decoded value, so no floating-point rounding behavior is
  relevant to any claim.
-/

namespace PaymentSystem

/-- JSON values as the tree that encoding/json parses a request body into. -/
inductive Json where
  | null : Json
  | bool (b : Bool) : Json
  | num (q : ℚ) : Json
  | str (s : String) : Json
  | arr (elems : List Json) : Json
  | obj (fields : List (String × Json)) : Json
deriving Repr

/-- The Payment struct of the source: fields ID, Amount, Currency, Status,
Description, with JSON tags id, amount, currency, status, description
(the last tagged omitempty). -/
structure Payment where
  ID : String
  Amount : ℚ
  Currency : String
  Status : String
  Description : String
deriving Repr

/-- The zero value of the Payment struct, as produced by `var payment Payment`
before decoding. -/
def Payment.zero : Payment :=
  { ID := "", Amount := 0, Currency := "", Status := "", Description := "" }

/-- ASCII lowercasing of a character, as used for encoding/json field-name
matching. -/
def lowerChar (c : Char) : Char :=
  if 'A' ≤ c ∧ c ≤ 'Z' then Char.ofNat (c.toNat + 32) else c

/-- ASCII lowercasing of an object key, modelling the case-insensitive
field-name matching of encoding/json. -/
def lowerKey (s : String) : String :=
  String.mk (s.data.map lowerChar)

/-- The JSON-tag keys of the Payment struct that the decoder recognizes. -/
def paymentFieldKeys : List String :=
  ["id", "amount", "currency", "status", "description"]

/-- One step of encoding/json struct decoding: assign one object entry to the
Payment being built. Known keys (matched case-insensitively against the JSON
tags) require the matching primitive type, null leaves the field unchanged,
and unknown keys are skipped. -/
def assignField (p : Payment) (key : String) (v : Json) : Except String Payment :=
  if lowerKey key = "id" then
    match v with
    | .str s => .ok { p with ID := s }
    | .null => .ok p
    | _ => .error "cannot unmarshal value into struct field Payment.id of type string"
  else if lowerKey key = "amount" then
    match v with
    | .num q => .ok { p with Amount := q }
    | .null => .ok p
    | _ => .error "cannot unmarshal value into struct field Payment.amount of type float64"
  else if lowerKey key = "currency" then
    match v with
    | .str s => .ok { p with Currency := s }
    | .null => .ok p
    | _ => .error "cannot unmarshal value into struct field Payment.currency of type string"
  else if lowerKey key = "status" then
    match v with
    | .str s => .ok { p with Status := s }
    | .null => .ok p
    | _ => .error "cannot unmarshal value into struct field Payment.status of type string"
  else if lowerKey key = "description" then
    match v with
    | .str s => .ok { p with Description := s }
    | .null => .ok p
    | _ => .error "cannot unmarshal value into struct field Payment.description of type string"
  else
    .ok p

/-- The decode loop over the entries of a JSON object, in order (so a
duplicated key keeps the last occurrence, as encoding/json does). -/
def decodeFields (p : Payment) : List (String × Json) → Except String Payment
  | [] => .ok p
  | (k, v) :: rest =>
    match assignField p k v with
    | .ok p2 => decodeFields p2 rest
    | .error e => .error e

/-- Decoding a parsed JSON value into the Payment struct. A JSON object is
decoded field by field starting from the zero value; the literal null leaves
the struct at its zero value without error; any other JSON value is a type
error. -/
def decodePayment : Json → Except String Payment
  | .null => .ok Payment.zero
  | .obj fields => decodeFields Payment.zero fields
  | _ => .error "cannot unmarshal value into Go value of type main.Payment"

/-- A request body as seen by json.NewDecoder(r.Body).Decode: either it is not
syntactically valid JSON at all (carrying the parser diagnostic), or it parses
to a JSON value. -/
inductive Body where
  | malformed (parseErr : String) : Body
  | wellFormed (j : Json) : Body
deriving Repr

/-- The result of json.NewDecoder(r.Body).Decode(given payment): a parse error
for malformed input, otherwise struct decoding of the parsed value. -/
def decodeBody : Body → Except String Payment
  | .malformed e => .error e
  | .wellFormed j => decodePayment j

/-- encoding/json serialization of a Payment: fields in struct order under
their JSON tags, with description omitted entirely when empty (omitempty). -/
def encodePayment (p : Payment) : Json :=
  .obj ([("id", .str p.ID), ("amount", .num p.Amount),
         ("currency", .str p.Currency), ("status", .str p.Status)] ++
        (if p.Description = "" then [] else [("description", .str p.Description)]))

/-- A response body: either the textual body written by http.Error, or a JSON
document written by json.NewEncoder(w).Encode. -/
inductive ResponseBody where
  | text (msg : String) : ResponseBody
  | json (j : Json) : ResponseBody
deriving Repr

/-- An HTTP response: status code, Content-Type header value, body. -/
structure Response where
  status : Nat
  contentType : Option String
  body : ResponseBody
deriving Repr

/-- http.Error w msg code: replies with the given status code, a plain-text
content type, and the message as the body. -/
def httpError (msg : String) (code : Nat) : Response :=
  { status := code, contentType := some "text/plain; charset=utf-8",
    body := .text msg }

/-- The structured log line emitted on successful creation
(log.Printf with ID, Amount, Currency, Status, Description). -/
def createdLogLine (p : Payment) : String :=
  "Payment created: ID=" ++ p.ID ++ ", Amount=" ++ toString p.Amount ++ " " ++
    p.Currency ++ ", Status=" ++ p.Status ++ ", Description=" ++ p.Description

/-- handleCreatePayment from the source, as a function of the request method
and body, returning the response together with the list of log lines emitted.
Non-POST methods get 405 before anything else; a decode error logs the parse
diagnostic and replies 400 "Invalid JSON"; validation checks amount then
currency, short-circuiting; on success the id "pay_" ++ "12345" and status
"pending" are assigned, a log line emitted, and the Payment echoed as JSON
with 201. -/
def handleCreatePayment (method : String) (body : Body) : Response × List String :=
  if method ≠ "POST" then
    (httpError "Invalid method" 405, [])
  else
    match decodeBody body with
    | .error e =>
      (httpError "Invalid JSON" 400, ["Error decoding JSON: " ++ e])
    | .ok payment =>
      if payment.Amount ≤ 0 then
        (httpError "Amount must be positive" 400, [])
      else if payment.Currency = "" then
        (httpError "Currency is required" 400, [])
      else
        let payment := { payment with ID := "pay_" ++ "12345", Status := "pending" }
        ({ status := 201, contentType := some "application/json",
           body := .json (encodePayment payment) },
         [createdLogLine payment])

/-- handleGetPayment from the source: non-GET methods get 405; otherwise the
fixed mock Payment is serialized as JSON with 200. -/
def handleGetPayment (method : String) : Response :=
  if method ≠ "GET" then
    httpError "Invalid method" 405
  else
    { status := 200, contentType := some "application/json",
      body := .json (encodePayment
        { ID := "pay_12345", Amount := 1000.50, Currency := "RUB",
          Status := "succeeded", Description := "" }) }

/-- Look up a key in a JSON object (first occurrence). -/
def Json.lookup (j : Json) (key : String) : Option Json :=
  match j with
  | .obj fields => (fields.find? (fun kv => kv.1 = key)).map (fun kv => kv.2)
  | _ => none

/-- The id field of a JSON response body, when present. -/
def responseId (r : Response) : Option Json :=
  match r.body with
  | .json j => j.lookup "id"
  | .text _ => none

/-- The constant identifier built by fmt.Sprintf. -/
theorem pay_id_eq : "pay_" ++ "12345" = "pay_12345" := rfl

/-- C1: a POST create-payment request whose body deserializes into a Payment
with positive amount and non-empty currency gets the constant id "pay_12345"
and status "pending" assigned, and the response is HTTP 201 with Content-Type
application/json and the full enriched Payment serialized as the body. -/
theorem create_valid_responds_201 (b : Body) (p : Payment)
    (hdec : decodeBody b = .ok p) (hamt : 0 < p.Amount) (hcur : p.Currency ≠ "") :
    (handleCreatePayment "POST" b).1 =
      { status := 201, contentType := some "application/json",
        body := .json (encodePayment { p with ID := "pay_12345", Status := "pending" }) } := by
  simp [handleCreatePayment, hdec, not_le.mpr hamt, hcur, pay_id_eq]

/-- Witness for C1: the body of end-to-end scenario 1. -/
theorem create_valid_responds_201_witness :
    (handleCreatePayment "POST" (Body.wellFormed (Json.obj
        [("amount", Json.num 100.5), ("currency", Json.str "RUB")]))).1 =
      { status := 201, contentType := some "application/json",
        body := .json (encodePayment
          { ID := "pay_12345", Amount := 100.5, Currency := "RUB",
            Status := "pending", Description := "" }) } :=
  create_valid_responds_201
    (Body.wellFormed (Json.obj [("amount", Json.num 100.5), ("currency", Json.str "RUB")]))
    { ID := "", Amount := 100.5, Currency := "RUB", Status := "", Description := "" }
    (by rfl) (by norm_num) (by decide)

/-- C2: validation runs only on successfully deserialized bodies and checks
amount first: whenever the decoded Payment has amount ≤ 0 the create handler
replies 400 "Amount must be positive", regardless of every other field —
in particular even when the currency is also empty. -/
theorem create_nonpositive_amount_400 (b : Body) (p : Payment)
    (hdec : decodeBody b = .ok p) (hamt : p.Amount ≤ 0) :
    (handleCreatePayment "POST" b).1 = httpError "Amount must be positive" 400 := by
  simp [handleCreatePayment, hdec, hamt]

/-- Witness for C2: amount 0 together with an empty currency still yields the
amount error, showing the amount check fires first. -/
theorem create_nonpositive_amount_400_witness :
    (handleCreatePayment "POST" (Body.wellFormed (Json.obj
        [("amount", Json.num 0), ("currency", Json.str "")]))).1 =
      httpError "Amount must be positive" 400 :=
  create_nonpositive_amount_400
    (Body.wellFormed (Json.obj [("amount", Json.num 0), ("currency", Json.str "")]))
    { ID := "", Amount := 0, Currency := "", Status := "", Description := "" }
    (by rfl) (by norm_num)

/-- C3: for every POST body that fails to deserialize, the create handler
replies 400 with the generic text "Invalid JSON" (so no Payment is echoed),
and the detailed parse error goes only to the operational log. -/
theorem create_bad_json_400 (b : Body) (e : String)
    (hdec : decodeBody b = .error e) :
    handleCreatePayment "POST" b =
      (httpError "Invalid JSON" 400, ["Error decoding JSON: " ++ e]) := by
  simp [handleCreatePayment, hdec]

/-- Witness for C3: a syntactically malformed body. -/
theorem create_bad_json_400_witness :
    handleCreatePayment "POST" (Body.malformed "unexpected end of JSON input") =
      (httpError "Invalid JSON" 400,
       ["Error decoding JSON: " ++ "unexpected end of JSON input"]) :=
  create_bad_json_400 (Body.malformed "unexpected end of JSON input")
    "unexpected end of JSON input" rfl

/-- C4: a successfully deserialized body with positive amount and empty
currency gets 400 "Currency is required". -/
theorem create_empty_currency_400 (b : Body) (p : Payment)
    (hdec : decodeBody b = .ok p) (hamt : 0 < p.Amount) (hcur : p.Currency = "") :
    (handleCreatePayment "POST" b).1 = httpError "Currency is required" 400 := by
  simp [handleCreatePayment, hdec, not_le.mpr hamt, hcur]

/-- Witness for C4: a positive amount with the currency field absent. -/
theorem create_empty_currency_400_witness :
    (handleCreatePayment "POST" (Body.wellFormed (Json.obj
        [("amount", Json.num 5)]))).1 = httpError "Currency is required" 400 :=
  create_empty_currency_400
    (Body.wellFormed (Json.obj [("amount", Json.num 5)]))
    { ID := "", Amount := 5, Currency := "", Status := "", Description := "" }
    (by rfl) (by norm_num) rfl

/-- C5: any non-POST method on the creation path gets 405 "Invalid method"
with no further processing — the result is the same constant for every body,
which is never decoded, and no log is emitted — and any non-GET method on the
status path likewise gets 405 "Invalid method". -/
theorem wrong_method_405 (m1 : String) (b : Body) (m2 : String)
    (h1 : m1 ≠ "POST") (h2 : m2 ≠ "GET") :
    handleCreatePayment m1 b = (httpError "Invalid method" 405, []) ∧
    handleGetPayment m2 = httpError "Invalid method" 405 :=
  ⟨by simp [handleCreatePayment, h1], by simp [handleGetPayment, h2]⟩

/-- Witness for C5: end-to-end scenario 4 (PUT on the creation path) and a
POST on the status path, with a malformed body that is never looked at. -/
theorem wrong_method_405_witness :
    handleCreatePayment "PUT" (Body.malformed "never decoded") =
      (httpError "Invalid method" 405, []) ∧
    handleGetPayment "POST" = httpError "Invalid method" 405 :=
  wrong_method_405 "PUT" (Body.malformed "never decoded") "POST"
    (by decide) (by decide)

/-- C6: on a GET request the status handler always produces the same literal
Payment — id "pay_12345", amount 1000.50, currency "RUB", status "succeeded",
with the empty description omitted from the serialized object — as JSON with
HTTP 200 and Content-Type application/json; being a pure function of the
method, it has no side effects and no other failure mode. -/
theorem get_status_fixed_payment :
    handleGetPayment "GET" =
      { status := 200, contentType := some "application/json",
        body := .json (Json.obj
          [("id", Json.str "pay_12345"), ("amount", Json.num 1000.5),
           ("currency", Json.str "RUB"), ("status", Json.str "succeeded")]) } := by
  norm_num [handleGetPayment, encodePayment]

/-- C7: in every successful creation, the id and status serialized into the
response are the server constants "pay_12345" and "pending": the decoded
Payment p — whose ID and Status fields may hold arbitrary client-supplied
values — has both fields overwritten before serialization. -/
theorem server_assigns_id_status (b : Body) (p : Payment)
    (hdec : decodeBody b = .ok p) (hamt : 0 < p.Amount) (hcur : p.Currency ≠ "") :
    (handleCreatePayment "POST" b).1.body =
      .json (encodePayment { p with ID := "pay_12345", Status := "pending" }) := by
  simp [handleCreatePayment, hdec, not_le.mpr hamt, hcur, pay_id_eq]

/-- Witness for C7: a body carrying client-chosen "id" and "status" values,
which are both overwritten in the response. -/
theorem server_assigns_id_status_witness :
    (handleCreatePayment "POST" (Body.wellFormed (Json.obj
        [("id", Json.str "evil"), ("status", Json.str "failed"),
         ("amount", Json.num 1), ("currency", Json.str "USD")]))).1.body =
      .json (encodePayment
        { ID := "pay_12345", Amount := 1, Currency := "USD",
          Status := "pending", Description := "" }) :=
  server_assigns_id_status
    (Body.wellFormed (Json.obj
      [("id", Json.str "evil"), ("status", Json.str "failed"),
       ("amount", Json.num 1), ("currency", Json.str "USD")]))
    { ID := "evil", Amount := 1, Currency := "USD", Status := "failed",
      Description := "" }
    (by rfl) (by norm_num) (by decide)

/-- C8: on a successful creation only id and status are modified before
serialization — amount, currency and description in the 201 body are exactly
the decoded ones — and when the description is empty it is omitted from the
serialized object rather than emitted as empty. -/
theorem create_frame_preserves_fields (b : Body) (p : Payment)
    (hdec : decodeBody b = .ok p) (hamt : 0 < p.Amount) (hcur : p.Currency ≠ "") :
    (handleCreatePayment "POST" b).1.body =
      .json (encodePayment
        { ID := "pay_12345", Amount := p.Amount, Currency := p.Currency,
          Status := "pending", Description := p.Description }) ∧
    (p.Description = "" →
      Json.lookup (encodePayment
        { ID := "pay_12345", Amount := p.Amount, Currency := p.Currency,
          Status := "pending", Description := p.Description }) "description" =
        none) := by
  constructor
  · simp [handleCreatePayment, hdec, not_le.mpr hamt, hcur, pay_id_eq]
  · intro hd
    simp [encodePayment, hd, Json.lookup, List.find?]

/-- Witness for C8: amount, currency and description survive unchanged and
the empty description is absent from the serialized object. -/
theorem create_frame_preserves_fields_witness :
    (handleCreatePayment "POST" (Body.wellFormed (Json.obj
        [("amount", Json.num 7), ("currency", Json.str "EUR")]))).1.body =
      .json (encodePayment
        { ID := "pay_12345", Amount := 7, Currency := "EUR",
          Status := "pending", Description := "" }) ∧
    Json.lookup (encodePayment
        { ID := "pay_12345", Amount := 7, Currency := "EUR",
          Status := "pending", Description := "" }) "description" = none := by
  have h := create_frame_preserves_fields
    (Body.wellFormed (Json.obj [("amount", Json.num 7), ("currency", Json.str "EUR")]))
    { ID := "", Amount := 7, Currency := "EUR", Status := "", Description := "" }
    (by rfl) (by norm_num) (by decide)
  exact ⟨h.1, h.2 rfl⟩

/-- C9: repeated valid creation requests yield the same id every time: any two
valid create requests, with possibly different amounts, currencies and
descriptions, carry equal id fields in their 201 responses, namely the
constant "pay_12345". -/
theorem create_id_constant_across_requests (b1 b2 : Body) (p1 p2 : Payment)
    (hd1 : decodeBody b1 = .ok p1) (ha1 : 0 < p1.Amount) (hc1 : p1.Currency ≠ "")
    (hd2 : decodeBody b2 = .ok p2) (ha2 : 0 < p2.Amount) (hc2 : p2.Currency ≠ "") :
    responseId (handleCreatePayment "POST" b1).1 =
      responseId (handleCreatePayment "POST" b2).1 ∧
    responseId (handleCreatePayment "POST" b1).1 = some (Json.str "pay_12345") := by
  have e1 : responseId (handleCreatePayment "POST" b1).1 = some (Json.str "pay_12345") := by
    simp [responseId, handleCreatePayment, hd1, not_le.mpr ha1, hc1, pay_id_eq,
      encodePayment, Json.lookup, List.find?]
  have e2 : responseId (handleCreatePayment "POST" b2).1 = some (Json.str "pay_12345") := by
    simp [responseId, handleCreatePayment, hd2, not_le.mpr ha2, hc2, pay_id_eq,
      encodePayment, Json.lookup, List.find?]
  exact ⟨e1.trans e2.symm, e1⟩

/-- Witness for C9: two valid requests with different amounts, currencies and
descriptions get the same id. -/
theorem create_id_constant_across_requests_witness :
    responseId (handleCreatePayment "POST" (Body.wellFormed (Json.obj
        [("amount", Json.num 100.5), ("currency", Json.str "RUB")]))).1 =
      responseId (handleCreatePayment "POST" (Body.wellFormed (Json.obj
        [("amount", Json.num 3), ("currency", Json.str "USD"),
         ("description", Json.str "rent")]))).1 ∧
    responseId (handleCreatePayment "POST" (Body.wellFormed (Json.obj
        [("amount", Json.num 100.5), ("currency", Json.str "RUB")]))).1 =
      some (Json.str "pay_12345") :=
  create_id_constant_across_requests
    (Body.wellFormed (Json.obj [("amount", Json.num 100.5), ("currency", Json.str "RUB")]))
    (Body.wellFormed (Json.obj
      [("amount", Json.num 3), ("currency", Json.str "USD"),
       ("description", Json.str "rent")]))
    { ID := "", Amount := 100.5, Currency := "RUB", Status := "", Description := "" }
    { ID := "", Amount := 3, Currency := "USD", Status := "", Description := "rent" }
    (by rfl) (by norm_num) (by decide) (by rfl) (by norm_num) (by decide)

/-- An object entry whose lowercased key is none of the Payment JSON tags
leaves the struct unchanged. -/
theorem assignField_unknown (p : Payment) (k : String) (v : Json)
    (h : lowerKey k ∉ paymentFieldKeys) : assignField p k v = .ok p := by
  simp [paymentFieldKeys] at h
  obtain ⟨h1, h2, h3, h4, h5⟩ := h
  delta assignField
  simp [h1, h2, h3, h4, h5]

/-- Decoding an object all of whose keys are unrecognized leaves the struct
at its starting value. -/
theorem decodeFields_unknown :
    ∀ (fields : List (String × Json)) (p : Payment),
      (∀ kv ∈ fields, lowerKey kv.1 ∉ paymentFieldKeys) →
      decodeFields p fields = .ok p := by
  intro fields
  induction fields with
  | nil => intro p h; rfl
  | cons kv rest ih =>
    intro p h
    obtain ⟨k, v⟩ := kv
    simp only [decodeFields,
      assignField_unknown p k v (h (k, v) (List.mem_cons_self _ _))]
    exact ih p (fun kv2 hkv => h kv2 (List.mem_cons_of_mem _ hkv))

/-- C10: the decoder is lenient — a well-formed JSON object whose keys are all
unrecognized (in particular the empty object) decodes successfully to the zero
Payment rather than being rejected as invalid JSON, and the create handler
then fails validation with 400 "Amount must be positive" because the absent
amount decoded to 0. -/
theorem decoder_lenient_unknown_fields (fields : List (String × Json))
    (h : ∀ kv ∈ fields, lowerKey kv.1 ∉ paymentFieldKeys) :
    decodePayment (Json.obj fields) = .ok Payment.zero ∧
    (handleCreatePayment "POST" (Body.wellFormed (Json.obj fields))).1 =
      httpError "Amount must be positive" 400 := by
  have hdec : decodePayment (Json.obj fields) = .ok Payment.zero := by
    simp [decodePayment, decodeFields_unknown fields Payment.zero h]
  refine ⟨hdec, ?_⟩
  have hdb : decodeBody (Body.wellFormed (Json.obj fields)) = .ok Payment.zero := hdec
  simp [handleCreatePayment, hdb, Payment.zero]

/-- Witness for C10: the empty object and an object with only an unrecognized
key both reach validation and fail on the amount, not on JSON validity. -/
theorem decoder_lenient_unknown_fields_witness :
    ((handleCreatePayment "POST" (Body.wellFormed (Json.obj []))).1 =
      httpError "Amount must be positive" 400) ∧
    ((handleCreatePayment "POST" (Body.wellFormed (Json.obj
        [("foo", Json.str "bar")]))).1 =
      httpError "Amount must be positive" 400) :=
  ⟨(decoder_lenient_unknown_fields [] (by decide)).2,
   (decoder_lenient_unknown_fields [("foo", Json.str "bar")] (by decide)).2⟩

end PaymentSystem
